import Mathlib

/-!
Verification of the flight-search scraping pipeline in
`flight_ticket_mcp_server/tools/flight_search_tools.py`.

The Python module is embedded shallowly:

* DOM access is abstracted by a `Container` record: each CSS-selector lookup
  performed by `_parse_flight_container` (through `_safe_ele`) is a field of
  type `Option String` (`none` = the element is absent or the lookup failed,
  which `_safe_ele` converts to `None`); `container.text` is the `fullText`
  field (`''` if absent).
* Python dictionaries holding flight data become the `FlightInfo` record;
  the Chinese dict keys map to fields as: 序号 → `idx`, 航空公司 → `airline`,
  航班号 → `flightNumber`, 出发时间 → `departureTime`, 出发机场 →
  `departureAirport`, 出发航站楼 → `departureTerminal`, 到达时间 →
  `arrivalTime`, 到达机场 → `arrivalAirport`, 到达航站楼 → `arrivalTerminal`,
  价格 → `price`.
* Machine-level string operations (`str.strip`, `str.replace`, `re.search`,
  `str.isdigit`, `"|".join`, `str.strip("|")`) are re-implemented on
  `List Char` so that every definition is executable and kernel-reducible.
* Exceptions become `Option`/`Except` values; the browser session and the
  non-deterministic page are explicit parameters.
-/

/-- Python `str.strip()`: drop whitespace from both ends (modelled with
`Char.isWhitespace`, which covers the ASCII whitespace the scraped strings
can contain). -/
def pyStrip (s : String) : String :=
  String.mk (((s.data.dropWhile Char.isWhitespace).reverse.dropWhile Char.isWhitespace).reverse)

/-- Python `text.replace('\xa0', ' ')`: a single-character replacement is a
character map. -/
def replaceNbsp (s : String) : String :=
  String.mk (s.data.map (fun c => if c = Char.ofNat 160 then ' ' else c))

/-- Remove every occurrence of one character, i.e. Python
`s.replace(c, '')` for a one-character pattern. -/
def removeChar (s : String) (c : Char) : String :=
  String.mk (s.data.filter (fun x => x ≠ c))

/-- One attempted match of the regex `[A-Z]{2}\d{3,4}` anchored at the head of
the character list: two ASCII uppercase letters followed by a greedy run of
three or four digits (`re` takes four when available). -/
def matchFlightNoAt (l : List Char) : Option (List Char) :=
  match l with
  | a :: b :: rest =>
    if a.isUpper && b.isUpper then
      let ds := (rest.takeWhile Char.isDigit).take 4
      if 3 ≤ ds.length then some (a :: b :: ds) else none
    else none
  | _ => none

/-- `re.search(r'([A-Z]{2}\d{3,4})', ·)`: try the anchored match at every
position from the left, first success wins. -/
def flightNoSearch : List Char → Option (List Char)
  | [] => none
  | c :: cs =>
    match matchFlightNoAt (c :: cs) with
    | some r => some r
    | none => flightNoSearch cs

/-- String-level wrapper of `flightNoSearch`, returning the captured group. -/
def searchFlightNo (s : String) : Option String :=
  (flightNoSearch s.data).map String.mk

/-- `re.search(r'(\d+)', ·)`: the first maximal digit run, if any. -/
def firstDigitRun : List Char → Option (List Char)
  | [] => none
  | c :: cs =>
    if c.isDigit then some (c :: cs.takeWhile Char.isDigit) else firstDigitRun cs

/-- Test for the substring `+1天` (Python `'+1天' in arrival_text`). -/
def containsPlus1 : List Char → Bool
  | '+' :: '1' :: '天' :: _ => true
  | _ :: cs => containsPlus1 cs
  | [] => false

/-- Python `arrival_text.replace('+1天', ' +1天')`: left-to-right,
non-overlapping replacement of every occurrence. -/
def replacePlus1 : List Char → List Char
  | '+' :: '1' :: '天' :: rest => ' ' :: '+' :: '1' :: '天' :: replacePlus1 rest
  | c :: cs => c :: replacePlus1 cs
  | [] => []

/-- One DOM flight container as seen by `_parse_flight_container`.  Each field
is the text of one selector lookup (`none` when `_safe_ele` yields `None`);
`airlineIdAttr`/`comfortIdAttr` are the `id` attributes of the fallback
elements (`none` when the element is absent, `some ''` when the element
exists but carries no `id`); `fullText` is `container.text or ''`. -/
structure Container where
  airlineName : Option String := none
  planeNo : Option String := none
  airlineIdAttr : Option String := none
  comfortIdAttr : Option String := none
  fullText : String := ""
  departTime : Option String := none
  departName : Option String := none
  departTerminal : Option String := none
  arriveTime : Option String := none
  arriveName : Option String := none
  arriveTerminal : Option String := none
  priceText : Option String := none
deriving Repr, DecidableEq

/-- One flight record (the Python dict built by `_parse_flight_container`). -/
structure FlightInfo where
  idx : Nat := 0
  airline : Option String := none
  flightNumber : Option String := none
  departureTime : Option String := none
  departureAirport : Option String := none
  departureTerminal : Option String := none
  arrivalTime : Option String := none
  arrivalAirport : Option String := none
  arrivalTerminal : Option String := none
  price : Option String := none
deriving Repr, DecidableEq

/-- Airline-name block: primary selector text, stripped. -/
def extractAirline (c : Container) : Option String :=
  c.airlineName.map pyStrip

/-- `plane_text`: the `.plane-No` text with non-breaking spaces replaced and
stripped, `''` when the element is absent. -/
def planeTextOf (c : Container) : String :=
  match c.planeNo with
  | some t => pyStrip (replaceNbsp t)
  | none => ""

/-- Flight-number block: regex on the `.plane-No` text, then on the candidate
`id` attributes, then on the container's full text; first match wins. -/
def extractFlightNumber (c : Container) : Option String :=
  let fromPlane :=
    if planeTextOf c ≠ "" then searchFlightNo (planeTextOf c) else none
  match fromPlane with
  | some fn => some fn
  | none =>
    let idCandidates :=
      (match c.airlineIdAttr with | some a => [a] | none => []) ++
      (match c.comfortIdAttr with | some a => [a] | none => [])
    match idCandidates.findSome? searchFlightNo with
    | some fn => some fn
    | none => searchFlightNo c.fullText

/-- Departure-time block. -/
def extractDepartTime (c : Container) : Option String :=
  c.departTime.map pyStrip

/-- Departure-airport block. -/
def extractDepartAirport (c : Container) : Option String :=
  c.departName.map pyStrip

/-- Departure-terminal block. -/
def extractDepartTerminal (c : Container) : Option String :=
  c.departTerminal.map pyStrip

/-- Arrival-time block, normalising the cross-midnight marker `+1天` into a
spaced suffix. -/
def extractArriveTime (c : Container) : Option String :=
  c.arriveTime.map (fun t =>
    let s := pyStrip t
    if containsPlus1 s.data then String.mk (replacePlus1 s.data) else s)

/-- Arrival-airport block. -/
def extractArriveAirport (c : Container) : Option String :=
  c.arriveName.map pyStrip

/-- Arrival-terminal block. -/
def extractArriveTerminal (c : Container) : Option String :=
  c.arriveTerminal.map pyStrip

/-- Price normalisation core: text already containing `¥` is kept verbatim,
otherwise the first digit run is re-prefixed with `¥` (no digits: no price). -/
def normalizePrice (t : String) : Option String :=
  if t.data.contains '¥' then some t
  else (firstDigitRun t.data).map (fun ds => "¥" ++ String.mk ds)

/-- Price block: primary selector text, stripped, then normalised. -/
def extractPrice (c : Container) : Option String :=
  c.priceText.bind (fun p => normalizePrice (pyStrip p))

/-- `_parse_flight_container`: build the record field by field (a failed
lookup leaves the field unset) and return it only when at least one of
flight number, departure time or price was extracted. -/
def parseFlightContainer (c : Container) (index : Nat) : Option FlightInfo :=
  let f : FlightInfo :=
    { idx := index
      airline := extractAirline c
      flightNumber := extractFlightNumber c
      departureTime := extractDepartTime c
      departureAirport := extractDepartAirport c
      departureTerminal := extractDepartTerminal c
      arrivalTime := extractArriveTime c
      arrivalAirport := extractArriveAirport c
      arrivalTerminal := extractArriveTerminal c
      price := extractPrice c }
  if f.flightNumber.isSome ∨ f.departureTime.isSome ∨ f.price.isSome then
    some f
  else none

/-- `flight_info.get(k) or ''`. -/
def orEmpty : Option String → String
  | some s => s
  | none => ""

/-- Python `"|".join parts`. -/
def joinPipe : List String → String
  | [] => ""
  | [p] => p
  | p :: ps => p ++ "|" ++ joinPipe ps

/-- Python `key.strip("|")`: drop the separator from both ends. -/
def stripPipes (s : String) : String :=
  String.mk (((s.data.dropWhile (fun c => c = '|')).reverse.dropWhile (fun c => c = '|')).reverse)

/-- `_make_flight_key`: join the six identifying fields with `|` and strip
leading/trailing separators. -/
def makeFlightKey (f : FlightInfo) : String :=
  stripPipes (joinPipe
    [orEmpty f.flightNumber, orEmpty f.departureTime, orEmpty f.arrivalTime,
     orEmpty f.departureAirport, orEmpty f.arrivalAirport, orEmpty f.airline])

/-- The mutable pair `(_scrolled_flights, _scrolled_flight_keys)`; the Python
set of keys is modelled as the list of keys in insertion order (membership is
all that is ever asked of it). -/
structure ScrollState where
  flights : List FlightInfo := []
  keys : List String := []
deriving Repr, DecidableEq

/-- The per-record body of the loop in `_collect_visible_flights` (state plus
the running `new_count`): an empty key is skipped, a known key is skipped,
otherwise the key is recorded and the record appended. -/
def collectMergeStep (acc : ScrollState × Nat) (f : FlightInfo) : ScrollState × Nat :=
  let k := makeFlightKey f
  if k = "" then acc
  else if k ∈ acc.1.keys then acc
  else (⟨acc.1.flights ++ [f], k :: acc.1.keys⟩, acc.2 + 1)

/-- The `enumerate` loop of `_collect_visible_flights` (`i` is the 1-based
index handed to the parser). -/
def collectLoop : ScrollState × Nat → Nat → List Container → ScrollState × Nat
  | acc, _, [] => acc
  | acc, i, c :: cs =>
    match parseFlightContainer c i with
    | none => collectLoop acc (i + 1) cs
    | some f => collectLoop (collectMergeStep acc f) (i + 1) cs

/-- `_collect_visible_flights`: run the loop over the currently visible
containers, returning the updated state and the number of new records. -/
def collectVisibleFlights (cs : List Container) (st : ScrollState) : ScrollState × Nat :=
  collectLoop (st, 0) 1 cs

/-- The final-pass acceptance test of `_parse_flights`:
`flight_info.get('航班号') and flight_info.get('航班号') != '未知'`. -/
def parseValid (f : FlightInfo) : Bool :=
  match f.flightNumber with
  | some s => s ≠ "" && s ≠ "未知"
  | none => false

/-- The container loop of `_parse_flights`: parse, require a usable flight
number, then deduplicate against the shared key set (an empty key bypasses
the key set and is appended directly, as in the source). -/
def parseLoop (st : ScrollState) : Nat → List Container → ScrollState
  | _, [] => st
  | i, c :: cs =>
    match parseFlightContainer c i with
    | none => parseLoop st (i + 1) cs
    | some f =>
      if parseValid f then
        let k := makeFlightKey f
        if k = "" then parseLoop ⟨st.flights ++ [f], st.keys⟩ (i + 1) cs
        else if k ∈ st.keys then parseLoop st (i + 1) cs
        else parseLoop ⟨st.flights ++ [f], k :: st.keys⟩ (i + 1) cs
      else parseLoop st (i + 1) cs

/-- Overwrite the presentation index (`item['序号'] = idx`). -/
def setIdx (i : Nat) (f : FlightInfo) : FlightInfo := { f with idx := i }

/-- Pair each element with its 1-based position. -/
def indexFrom {α : Type} : Nat → List α → List (Nat × α)
  | _, [] => []
  | i, x :: xs => (i, x) :: indexFrom (i + 1) xs

/-- The renumbering pass at the end of `_parse_flights`. -/
def renumber (fs : List FlightInfo) : List FlightInfo :=
  (indexFrom 1 fs).map (fun p => setIdx p.1 p.2)

/-- `_parse_flights`: start from the scrolled records; if the page yields no
containers (`none` or the empty list) return them as they are, otherwise run
the deduplicating loop and renumber the merged list. -/
def parseFlights (pageContainers : Option (List Container)) (st : ScrollState) :
    List FlightInfo :=
  match pageContainers with
  | none => st.flights
  | some cs =>
    if cs = [] then st.flights
    else renumber (parseLoop st 1 cs).flights

/-- Erase the presentation index, which `_parse_flights` reassigns and which
the identity key never reads. -/
def eraseIdx (f : FlightInfo) : FlightInfo := { f with idx := 0 }

/-- Run the scroll-round collections in sequence (the successive calls of
`_collect_visible_flights` made by the scroll loop). -/
def runRoundsCollect (rounds : List (List Container)) (st : ScrollState) : ScrollState :=
  rounds.foldl (fun s cs => (collectVisibleFlights cs s).1) st

/-- The merged record list a search produces: scroll-round collection starting
from the empty state followed by the final `_parse_flights` pass. -/
def searchMerged (rounds : List (List Container)) (finalCs : Option (List Container)) :
    List FlightInfo :=
  parseFlights finalCs (runRoundsCollect rounds ⟨[], []⟩)

/-- The records a scroll round offers to the deduplicator, in order: every
container that parses successfully. -/
def collectCandidates (i : Nat) (cs : List Container) : List FlightInfo :=
  (indexFrom i cs).filterMap (fun p => parseFlightContainer p.2 p.1)

/-- The records the final pass offers to the deduplicator: parsed containers
that also carry a usable flight number. -/
def parseCandidates (i : Nat) (cs : List Container) : List FlightInfo :=
  (indexFrom i cs).filterMap (fun p => (parseFlightContainer p.2 p.1).filter parseValid)

/-- Every record offered to the deduplicator over a whole search, in
processing order. -/
def allCandidates (rounds : List (List Container)) (finalCs : Option (List Container)) :
    List FlightInfo :=
  (rounds.map (collectCandidates 1)).flatten ++
    (match finalCs with
     | none => []
     | some cs => if cs = [] then [] else parseCandidates 1 cs)

/-- Record-level deduplicating fold shared by both passes; `keepEmpty` tells
whether an empty-key record is appended (final pass) or skipped (scroll
collection). -/
def mergeAll (keepEmpty : Bool) (st : ScrollState) : List FlightInfo → ScrollState
  | [] => st
  | f :: fs =>
    let k := makeFlightKey f
    if k = "" then
      mergeAll keepEmpty (if keepEmpty then ⟨st.flights ++ [f], st.keys⟩ else st) fs
    else if k ∈ st.keys then mergeAll keepEmpty st fs
    else mergeAll keepEmpty ⟨st.flights ++ [f], k :: st.keys⟩ fs

/-- A sequence of deduplicating passes, each with its own empty-key policy. -/
def mergeStages (st : ScrollState) : List (Bool × List FlightInfo) → ScrollState
  | [] => st
  | s :: ss => mergeStages (mergeAll s.1 st s.2) ss

/-- What one scroll round observes on the page: the containers the collection
pass sees, the visible-item count `len(flight_elements)` of the separate
element query, and the scroll-container content height (0 when the metadata
query fails). -/
structure RoundInput where
  containers : List Container := []
  count : Nat := 0
  height : Nat := 0
deriving Repr, DecidableEq

/-- The loop-carried variables of `_intelligent_scroll_for_content` together
with the shared collection state. -/
structure LoopState where
  scroll : ScrollState
  sameRounds : Nat
  prevCount : Nat
  prevHeight : Nat
deriving Repr, DecidableEq

/-- One iteration of the scroll loop: collect the visible flights, stop once
30 deduplicated records are held, otherwise update the stability counters and
stop after `stable_rounds = 3` quiet rounds.  Returns the new state and
whether the loop breaks. -/
def scrollRound (st : LoopState) (r : RoundInput) : LoopState × Bool :=
  let res := collectVisibleFlights r.containers st.scroll
  if 30 ≤ res.1.flights.length then
    (⟨res.1, st.sameRounds, st.prevCount, st.prevHeight⟩, true)
  else
    let st' : LoopState :=
      if res.2 = 0 ∧ r.height = st.prevHeight ∧ r.count ≤ st.prevCount then
        ⟨res.1, st.sameRounds + 1, st.prevCount, st.prevHeight⟩
      else
        ⟨res.1, 0, max st.prevCount r.count, r.height⟩
    (st', decide (3 ≤ st'.sameRounds))

/-- The bounded `for i in range(1, max_rounds + 1)` loop, recorded as the list
of states after each executed round; `page` maps the round number to what the
page presented in that round. -/
def scrollTrace (page : Nat → RoundInput) : Nat → Nat → LoopState → List LoopState
  | _, 0, _ => []
  | i, rem + 1, st =>
    let step := scrollRound st (page i)
    if step.2 then [step.1]
    else step.1 :: scrollTrace page (i + 1) rem step.1

/-- `_intelligent_scroll_for_content` with `max_rounds = 5`, starting from the
freshly initialised counters. -/
def intelligentScrollTrace (page : Nat → RoundInput) (st : ScrollState) : List LoopState :=
  scrollTrace page 1 5 ⟨st, 0, 0, 0⟩

/-- A calendar date as `datetime.date`. -/
structure Date where
  y : Nat
  m : Nat
  d : Nat
deriving Repr, DecidableEq

/-- Gregorian leap-year rule used by `datetime`. -/
def isLeapYear (y : Nat) : Bool :=
  y % 4 = 0 && (y % 100 ≠ 0 || y % 400 = 0)

/-- Days in a month of the Gregorian calendar. -/
def daysInMonth (y m : Nat) : Nat :=
  if m = 2 then (if isLeapYear y then 29 else 28)
  else if m = 4 ∨ m = 6 ∨ m = 9 ∨ m = 11 then 30
  else 31

/-- Split a character list on `-` separators. -/
def splitOnDash (l : List Char) : List (List Char) :=
  match l with
  | [] => [[]]
  | x :: xs =>
    match splitOnDash xs with
    | [] => [[]]
    | h :: t => if x = '-' then [] :: h :: t else (x :: h) :: t

/-- Decimal value of a digit list. -/
def digitsToNat (l : List Char) : Nat :=
  l.foldl (fun n c => n * 10 + (c.toNat - 48)) 0

/-- `datetime.strptime(s, "%Y-%m-%d")`: three dash-separated digit groups
(CPython's `%Y` pattern is exactly four digits, `%m`/`%d` one or two),
forming a valid Gregorian date with year at least `datetime.MINYEAR = 1`;
`none` models the `ValueError`. -/
def parseDate (s : String) : Option Date :=
  match splitOnDash s.data with
  | [ys, ms, ds] =>
    if ys.length = 4 ∧ ys.all Char.isDigit ∧
        ms ≠ [] ∧ ms.length ≤ 2 ∧ ms.all Char.isDigit ∧
        ds ≠ [] ∧ ds.length ≤ 2 ∧ ds.all Char.isDigit then
      let y := digitsToNat ys
      let m := digitsToNat ms
      let d := digitsToNat ds
      if 1 ≤ y ∧ 1 ≤ m ∧ m ≤ 12 ∧ 1 ≤ d ∧ d ≤ daysInMonth y m then
        some ⟨y, m, d⟩
      else none
    else none
  | _ => none

/-- Strict `<` on dates (`flight_date.date() < datetime.now().date()`). -/
def dateLt (a b : Date) : Bool :=
  if a.y ≠ b.y then decide (a.y < b.y)
  else if a.m ≠ b.m then decide (a.m < b.m)
  else decide (a.d < b.d)

/-- The module-level environment `searchFlightRoutes` consults: availability
of the two optional imports, the city-dictionary lookups, and today's date. -/
structure Env where
  drissionAvailable : Bool
  citiesAvailable : Bool
  getAirportCode : String → Option String
  getCityName : String → Option String
  today : Date

/-- What happened to the browser-session block: either constructing or
closing the searcher raised (the exception escapes to the outermost handler),
or the session ran and the inner try-block of `search_flights` finished with
a parsed flight list or raised. -/
inductive SessionOutcome where
  | raises (msg : String)
  | runs (phase : Except String (List FlightInfo))

/-- The `price_statistics` sub-dictionary. -/
structure PriceStats where
  min_price : Nat
  max_price : Nat
  avg_price : Nat
deriving Repr, DecidableEq

/-- The result dictionary of `searchFlightRoutes` (the wall-clock
`query_time` field is omitted: real time is outside the embedding; the
city-name echo fields are folded into `formatted_output`, which consumes the
same lookups). -/
structure RouteResult where
  status : String
  message : Option String := none
  error_code : Option String := none
  departure_city : Option String := none
  destination_city : Option String := none
  departure_date : Option String := none
  flight_count : Option Nat := none
  flights : List FlightInfo := []
  price_statistics : Option PriceStats := none
  airline_statistics : List (String × Nat) := []
  formatted_output : Option String := none
deriving Repr, DecidableEq

/-- An error envelope, carrying only status, message and code. -/
def errorResult (msg code : String) : RouteResult :=
  { status := "error", message := some msg, error_code := some code }

/-- Python falsiness of a lookup result (`not get_airport_code(city)`):
missing or empty. -/
def isFalsyOpt : Option String → Bool
  | none => true
  | some s => s = ""

/-- `price_str = flight['价格'].replace('¥', '').replace('起', '')`. -/
def stripPriceStr (s : String) : String :=
  removeChar (removeChar s '¥') '起'

/-- Python `str.isdigit()`: non-empty and all digits. -/
def pyIsDigit (s : String) : Bool :=
  !s.data.isEmpty && s.data.all Char.isDigit

/-- One iteration of the price-collection loop of the statistics block:
`if '价格' in flight and flight['价格'] != '未知'`, strip, `isdigit`,
append the parsed integer. -/
def priceStep (ps : List Nat) (f : FlightInfo) : List Nat :=
  match f.price with
  | some p =>
    if p ≠ "未知" then
      if pyIsDigit (stripPriceStr p) then ps ++ [digitsToNat (stripPriceStr p).data]
      else ps
    else ps
  | none => ps

/-- The price-collection loop of the statistics block, accumulating the
parsed integer prices in order. -/
def collectPrices (flights : List FlightInfo) : List Nat :=
  flights.foldl priceStep []

/-- `airlines[airline] = airlines.get(airline, 0) + 1` on an
insertion-ordered dictionary. -/
def bumpAirline (m : List (String × Nat)) (a : String) : List (String × Nat) :=
  match m with
  | [] => [(a, 1)]
  | (b, n) :: rest => if b = a then (b, n + 1) :: rest else (b, n) :: bumpAirline rest a

/-- The airline-counting loop (`flight.get('航空公司', '未知')`). -/
def collectAirlines (flights : List FlightInfo) : List (String × Nat) :=
  flights.foldl (fun m f => bumpAirline m (f.airline.getD "未知")) []

/-- `min / max / sum // len` over the collected prices (the empty case is
unreachable behind the `if prices:` guard). -/
def priceStatsOf (prices : List Nat) : PriceStats :=
  match prices with
  | [] => ⟨0, 0, 0⟩
  | p :: ps =>
    ⟨ps.foldl Nat.min p, ps.foldl Nat.max p,
      ((p :: ps).foldl (fun a b => a + b) 0) / (p :: ps).length⟩

/-- City display name as it appears in the f-strings (`None` prints as
"None"). -/
def cityNameStr (env : Env) (city : String) : String :=
  match env.getCityName city with
  | some s => s
  | none => "None"

/-- One flight block of `_format_route_result`. -/
def formatFlightLines (p : Nat × FlightInfo) : List String :=
  ["【" ++ toString p.1 ++ "】" ++ p.2.airline.getD "未知" ++ " " ++ p.2.flightNumber.getD "未知",
   "    🛫 " ++ p.2.departureTime.getD "未知" ++ " " ++ p.2.departureAirport.getD "未知" ++ " " ++
     p.2.departureTerminal.getD "",
   "    🛬 " ++ p.2.arrivalTime.getD "未知" ++ " " ++ p.2.arrivalAirport.getD "未知" ++ " " ++
     p.2.arrivalTerminal.getD "",
   "    💰 " ++ p.2.price.getD "未知",
   ""]

/-- `_format_route_result`. -/
def formatRouteResult (env : Env) (flights : List FlightInfo)
    (dep dest date : String) : String :=
  if flights = [] then
    "😔 未找到 " ++ dep ++ " -> " ++ dest ++ " 在 " ++ date ++ " 的航班"
  else
    String.intercalate "\n"
      (["✈️ 航班查询结果",
        "📍 " ++ cityNameStr env dep ++ " -> " ++ cityNameStr env dest,
        "📅 " ++ date,
        "🔢 共找到 " ++ toString flights.length ++ " 条航班",
        ""] ++ ((indexFrom 1 flights).map formatFlightLines).flatten)

/-- The success envelope built after `search_flights` returns, including the
statistics block guarded by `if flights:`. -/
def successResult (env : Env) (dep dest date : String) (flights : List FlightInfo) :
    RouteResult :=
  let base : RouteResult :=
    { status := "success"
      departure_city := some dep
      destination_city := some dest
      departure_date := some date
      flight_count := some flights.length
      flights := flights
      formatted_output := some (formatRouteResult env flights dep dest date) }
  if flights ≠ [] then
    let prices := collectPrices flights
    let airlines := collectAirlines flights
    { base with
      price_statistics := if prices ≠ [] then some (priceStatsOf prices) else none
      airline_statistics := airlines }
  else base

/-- `FlightRouteSearcher.search_flights`: re-validate the airport codes and
the date (returning an empty list on failure), then run the navigation /
scroll / extraction phase inside the try-block — any exception there is
caught and also yields an empty list. -/
def search_flights (env : Env) (dep dest date : String)
    (phase : Except String (List FlightInfo)) : List FlightInfo :=
  if isFalsyOpt (env.getAirportCode dep) || isFalsyOpt (env.getAirportCode dest) then []
  else
    match parseDate date with
    | none => []
    | some _ =>
      match phase with
      | .error _ => []
      | .ok flights => flights

/-- `searchFlightRoutes`: parameter validation in source order, dependency
checks, date parsing and past-date check, city resolution, then the session
block; an exception escaping the session block (construction or close) is
converted by the outermost handler into the `SEARCH_FAILED` envelope. -/
def searchFlightRoutes (env : Env) (session : SessionOutcome)
    (dep dest date : String) : RouteResult :=
  if dep = "" ∨ dest = "" ∨ date = "" then
    errorResult "出发地、目的地和出发日期都不能为空" "INVALID_PARAMS"
  else if !env.drissionAvailable then
    errorResult "DrissionPage库未安装，无法进行航班搜索" "DRISSION_PAGE_NOT_AVAILABLE"
  else if !env.citiesAvailable then
    errorResult "城市字典未找到，无法进行航班搜索" "CITIES_DICT_NOT_AVAILABLE"
  else
    match parseDate date with
    | none => errorResult "日期格式不正确，请使用YYYY-MM-DD格式" "INVALID_DATE_FORMAT"
    | some d =>
      if dateLt d env.today then errorResult "不能查询过去的日期" "PAST_DATE"
      else if isFalsyOpt (env.getAirportCode dep) then
        errorResult ("无效的出发地: " ++ dep) "INVALID_DEPARTURE_CITY"
      else if isFalsyOpt (env.getAirportCode dest) then
        errorResult ("无效的目的地: " ++ dest) "INVALID_DESTINATION_CITY"
      else
        match session with
        | .raises e => errorResult ("查询航班路线失败: " ++ e) "SEARCH_FAILED"
        | .runs phase =>
          successResult env dep dest date (search_flights env dep dest date phase)

/-- A fixed environment for concrete evaluations: both optional dependencies
available, every city resolving, today = 2025-10-12. -/
def envDemo : Env :=
  { drissionAvailable := true
    citiesAvailable := true
    getAirportCode := fun _ => some "SHA"
    getCityName := fun _ => some "上海"
    today := ⟨2025, 10, 12⟩ }

/-- Records matching an identity key (the deduplication predicate). -/
def byKey (k : String) (f : FlightInfo) : Bool := makeFlightKey f == k

/-- Spec-side eligibility for price statistics: the price field, stripped of
the currency symbol and the qualifier, is a (non-empty) digit string; its
integer value is collected. -/
def specEligiblePrices (flights : List FlightInfo) : List Nat :=
  flights.filterMap (fun f =>
    f.price.bind (fun p =>
      if p ≠ "未知" ∧ pyIsDigit (stripPriceStr p) then
        some (digitsToNat (stripPriceStr p).data)
      else none))

/-- A container whose only extractable field is the price: accepted by the
extractor but with an empty identity key. -/
def priceOnlyContainer : Container := { priceText := some "¥100" }

/-- The record the extractor produces for `priceOnlyContainer` at index 1. -/
def priceOnlyRecord : FlightInfo := { idx := 1, price := some "¥100" }

/-- A fully populated sample container. -/
def containerMU : Container :=
  { planeNo := some "MU6863", departTime := some "08:30", priceText := some "1200起" }

/-- The record the extractor produces for `containerMU` at index 1. -/
def recordMU : FlightInfo :=
  { idx := 1, flightNumber := some "MU6863", departureTime := some "08:30",
    price := some "¥1200" }

/-- Sample flights for the statistics claims. -/
def flight100 : FlightInfo := { idx := 1, price := some "¥100" }

/-- Second sample flight (price 101). -/
def flight101 : FlightInfo := { idx := 2, price := some "¥101" }

/-- A flight whose price does not parse as an integer. -/
def flightBad : FlightInfo := { idx := 3, price := some "特价" }

/-! ## Helper lemmas -/

theorem all_takeWhile (p : Char → Bool) : ∀ l : List Char, (l.takeWhile p).all p = true := by
  intro l
  induction l with
  | nil => rfl
  | cons a l ih =>
    by_cases h : p a = true
    · simp [List.takeWhile_cons, h, ih]
    · simp [List.takeWhile_cons, h]

theorem all_take (p : Char → Bool) :
    ∀ (n : Nat) (l : List Char), l.all p = true → (l.take n).all p = true := by
  intro n l
  induction l generalizing n with
  | nil => simp
  | cons a l ih =>
    intro h
    cases n with
    | zero => simp
    | succ n =>
      simp only [List.take_succ_cons, List.all_cons, Bool.and_eq_true] at h ⊢
      exact ⟨h.1, ih n h.2⟩

theorem matchFlightNoAt_sound {l r : List Char} (h : matchFlightNoAt l = some r) :
    ∃ a b ds, r = a :: b :: ds ∧ a.isUpper = true ∧ b.isUpper = true ∧
      ds.all Char.isDigit = true ∧ (ds.length = 3 ∨ ds.length = 4) := by
  rcases l with _ | ⟨a, _ | ⟨b, rest⟩⟩
  · simp [matchFlightNoAt] at h
  · simp [matchFlightNoAt] at h
  · simp only [matchFlightNoAt] at h
    split at h
    · next hup =>
      split at h
      · next hlen =>
        rcases Bool.and_eq_true .. |>.mp hup with ⟨ha, hb⟩
        refine ⟨a, b, (rest.takeWhile Char.isDigit).take 4, ?_, ha, hb, ?_, ?_⟩
        · exact (Option.some.injEq .. |>.mp h).symm
        · exact all_take Char.isDigit 4 _ (all_takeWhile Char.isDigit rest)
        · have h4 : ((rest.takeWhile Char.isDigit).take 4).length ≤ 4 :=
            List.length_take_le 4 _
          omega
      · exact absurd h (by simp)
    · exact absurd h (by simp)

theorem flightNoSearch_sound :
    ∀ {l r : List Char}, flightNoSearch l = some r →
      ∃ a b ds, r = a :: b :: ds ∧ a.isUpper = true ∧ b.isUpper = true ∧
        ds.all Char.isDigit = true ∧ (ds.length = 3 ∨ ds.length = 4) := by
  intro l
  induction l with
  | nil => intro r h; simp [flightNoSearch] at h
  | cons c cs ih =>
    intro r h
    simp only [flightNoSearch] at h
    cases hm : matchFlightNoAt (c :: cs) with
    | some r' =>
      rw [hm] at h
      exact (Option.some.injEq .. |>.mp h) ▸ matchFlightNoAt_sound hm
    | none =>
      rw [hm] at h
      exact ih h

/-! ## Claim theorems -/

/-- Claim C7: the flight-number pattern of the Record Extractor matches a
two-uppercase-letter carrier prefix followed by three or four digits — every
successful search returns a string of that shape — and on the concrete
inputs, "MU6863" matches (returning itself) while "M6863" and "MU68" do not
match at all. -/
theorem flight_number_pattern_C7 :
    (∀ s r : String, searchFlightNo s = some r →
      ∃ a b ds, r.data = a :: b :: ds ∧ a.isUpper = true ∧ b.isUpper = true ∧
        ds.all Char.isDigit = true ∧ (ds.length = 3 ∨ ds.length = 4)) ∧
    searchFlightNo "MU6863" = some "MU6863" ∧
    searchFlightNo "M6863" = none ∧
    searchFlightNo "MU68" = none := by
  refine ⟨?_, by decide, by decide, by decide⟩
  intro s r h
  simp only [searchFlightNo, Option.map_eq_some'] at h
  rcases h with ⟨l, hl, rfl⟩
  exact flightNoSearch_sound hl

/-- Witness for C7: the soundness direction applied at the concrete match
"MU6863". -/
theorem flight_number_pattern_C7_witness :
    ∃ a b ds, ("MU6863" : String).data = a :: b :: ds ∧ a.isUpper = true ∧
      b.isUpper = true ∧ ds.all Char.isDigit = true ∧
      (ds.length = 3 ∨ ds.length = 4) :=
  flight_number_pattern_C7.1 "MU6863" "MU6863" (by decide)

/-- Claim C8: price normalisation is the identity on any text already
containing the currency symbol, and otherwise prefixes the first digit run
with the symbol: through the Record Extractor, "¥1200" stays "¥1200" and
"1200起" becomes "¥1200". -/
theorem price_normalization_C8 :
    (∀ t : String, t.data.contains '¥' = true → normalizePrice t = some t) ∧
    extractPrice { priceText := some "¥1200" } = some "¥1200" ∧
    extractPrice { priceText := some "1200起" } = some "¥1200" := by
  refine ⟨?_, by decide, by decide⟩
  intro t h
  simp only [normalizePrice, h]
  rfl

/-- Witness for C8: the identity case applied at the concrete input
"¥1200". -/
theorem price_normalization_C8_witness : normalizePrice "¥1200" = some "¥1200" :=
  price_normalization_C8.1 "¥1200" (by decide)

/-- Claim C10: the identity key is not injective on records with a single
identifying field: a record carrying only the flight number "X" and a
distinct record carrying only the airline "X" both yield the key "X" (the
join separators are stripped from both ends), so the deduplicating merge
keeps only the first of the two. -/
theorem key_not_injective_C10 :
    makeFlightKey { flightNumber := some "X" } = makeFlightKey { airline := some "X" } ∧
    ({ flightNumber := some "X" } : FlightInfo) ≠ { airline := some "X" } ∧
    makeFlightKey { flightNumber := some "X" } = "X" ∧
    collectMergeStep (collectMergeStep (⟨[], []⟩, 0) { flightNumber := some "X" })
        { airline := some "X" } =
      (⟨[{ flightNumber := some "X" }], ["X"]⟩, 1) := by
  decide

theorem collectLoop_mem :
    ∀ (cs : List Container) (acc : ScrollState × Nat) (i : Nat) (g : FlightInfo),
      g ∈ (collectLoop acc i cs).1.flights → g ∈ acc.1.flights ∨ makeFlightKey g ≠ "" := by
  intro cs
  induction cs with
  | nil => intro acc i g h; exact Or.inl h
  | cons c cs ih =>
    intro acc i g h
    simp only [collectLoop] at h
    cases hp : parseFlightContainer c i with
    | none =>
      rw [hp] at h
      exact ih acc (i + 1) g h
    | some f =>
      rw [hp] at h
      rcases ih (collectMergeStep acc f) (i + 1) g h with hmem | hk
      · by_cases hke : makeFlightKey f = ""
        · rw [collectMergeStep, if_pos hke] at hmem
          exact Or.inl hmem
        · by_cases hin : makeFlightKey f ∈ acc.1.keys
          · rw [collectMergeStep, if_neg hke, if_pos hin] at hmem
            exact Or.inl hmem
          · rw [collectMergeStep, if_neg hke, if_neg hin] at hmem
            simp only [List.mem_append, List.mem_singleton] at hmem
            rcases hmem with hmem | rfl
            · exact Or.inl hmem
            · exact Or.inr hke
      · exact Or.inr hk

/-- Claim C1: the source drops, rather than accepts, a record whose identity
key is empty — the extractor accepts `priceOnlyContainer` (price only, so
every key field is missing and the key is empty), yet neither the scroll
collection nor the whole merged pipeline ever inserts it. -/
theorem emptyKey_accepted_counterexample_C1 :
    parseFlightContainer priceOnlyContainer 1 = some priceOnlyRecord ∧
    makeFlightKey priceOnlyRecord = "" ∧
    (collectVisibleFlights [priceOnlyContainer] ⟨[], []⟩).1.flights = [] ∧
    searchMerged [[priceOnlyContainer]] (some [priceOnlyContainer]) = [] := by
  decide

/-- Claim C1 (amended): a record with an empty identity key is skipped by the
deduplicating collection step — it is never inserted into the merged set nor
tracked in the key set — so every record the scroll collection adds has a
non-empty key. -/
theorem emptyKey_record_skipped_C1 (acc : ScrollState × Nat) (f : FlightInfo)
    (h : makeFlightKey f = "") :
    collectMergeStep acc f = acc ∧
    ∀ (cs : List Container) (st : ScrollState) (g : FlightInfo),
      g ∈ (collectVisibleFlights cs st).1.flights →
        g ∈ st.flights ∨ makeFlightKey g ≠ "" := by
  constructor
  · rw [collectMergeStep, if_pos h]
  · intro cs st g hg
    exact collectLoop_mem cs (st, 0) 1 g hg

/-- Witness for the amended C1, at the concrete empty-key record produced by
`priceOnlyContainer`. -/
theorem emptyKey_record_skipped_C1_witness :
    makeFlightKey priceOnlyRecord = "" ∧
    collectMergeStep ((⟨[], []⟩ : ScrollState), 0) priceOnlyRecord = ((⟨[], []⟩ : ScrollState), 0) :=
  ⟨by decide, (emptyKey_record_skipped_C1 ((⟨[], []⟩ : ScrollState), 0) priceOnlyRecord (by decide)).1⟩

/-- Claim C5: the Record Extractor is a total function (the embedding returns
`Option`, never an exception): the produced record carries exactly the
per-field extraction results (a failed lookup leaves the field unset), a
record is returned if and only if at least one of flight number, departure
time or price was extracted, and the all-absent container yields `none`. -/
theorem extractor_total_C5 (c : Container) (i : Nat) :
    ((parseFlightContainer c i).isSome ↔
      ((extractFlightNumber c).isSome ∨ (extractDepartTime c).isSome ∨
        (extractPrice c).isSome)) ∧
    (∀ f, parseFlightContainer c i = some f →
      f = { idx := i
            airline := extractAirline c
            flightNumber := extractFlightNumber c
            departureTime := extractDepartTime c
            departureAirport := extractDepartAirport c
            departureTerminal := extractDepartTerminal c
            arrivalTime := extractArriveTime c
            arrivalAirport := extractArriveAirport c
            arrivalTerminal := extractArriveTerminal c
            price := extractPrice c }) ∧
    parseFlightContainer {} i = none := by
  refine ⟨?_, ?_, rfl⟩
  · unfold parseFlightContainer
    dsimp only
    split
    · next h => simpa using h
    · next h => simpa using h
  · intro f hf
    unfold parseFlightContainer at hf
    dsimp only at hf
    split at hf
    · exact (Option.some.injEq .. |>.mp hf).symm
    · exact absurd hf (by simp)

/-- Witness for C5 at a concrete container: the record extracted from
`containerMU` is exactly the field-wise extraction result. -/
theorem extractor_total_C5_witness :
    recordMU =
      { idx := 1
        airline := extractAirline containerMU
        flightNumber := extractFlightNumber containerMU
        departureTime := extractDepartTime containerMU
        departureAirport := extractDepartAirport containerMU
        departureTerminal := extractDepartTerminal containerMU
        arrivalTime := extractArriveTime containerMU
        arrivalAirport := extractArriveAirport containerMU
        arrivalTerminal := extractArriveTerminal containerMU
        price := extractPrice containerMU } :=
  (extractor_total_C5 containerMU 1).2.1 recordMU (by decide)

theorem scrollRound_continue (st : LoopState) (r : RoundInput)
    (h : (scrollRound st r).2 = false) :
    (scrollRound st r).1.scroll.flights.length < 30 := by
  unfold scrollRound at h ⊢
  dsimp only at h ⊢
  by_cases h30 : 30 ≤ (collectVisibleFlights r.containers st.scroll).1.flights.length
  · rw [if_pos h30] at h
    exact absurd h (by simp)
  · rw [if_neg h30]
    by_cases hc : (collectVisibleFlights r.containers st.scroll).2 = 0 ∧
        r.height = st.prevHeight ∧ r.count ≤ st.prevCount
    · rw [if_pos hc]
      show (collectVisibleFlights r.containers st.scroll).1.flights.length < 30
      omega
    · rw [if_neg hc]
      show (collectVisibleFlights r.containers st.scroll).1.flights.length < 30
      omega

theorem scrollTrace_length (page : Nat → RoundInput) :
    ∀ (rem i : Nat) (st : LoopState), (scrollTrace page i rem st).length ≤ rem := by
  intro rem
  induction rem with
  | zero => intro i st; simp [scrollTrace]
  | succ rem ih =>
    intro i st
    simp only [scrollTrace]
    split
    · simp
    · simpa [Nat.succ_le_succ] using ih (i + 1) (scrollRound st (page i)).1

theorem scrollTrace_dropLast (page : Nat → RoundInput) :
    ∀ (rem i : Nat) (st : LoopState),
      ∀ s ∈ (scrollTrace page i rem st).dropLast, s.scroll.flights.length < 30 := by
  intro rem
  induction rem with
  | zero => intro i st s hs; simp [scrollTrace] at hs
  | succ rem ih =>
    intro i st s hs
    simp only [scrollTrace] at hs
    by_cases hstop : (scrollRound st (page i)).2 = true
    · rw [if_pos hstop] at hs
      simp at hs
    · rw [if_neg hstop] at hs
      rw [Bool.not_eq_true] at hstop
      cases htail : scrollTrace page (i + 1) rem (scrollRound st (page i)).1 with
      | nil =>
        rw [htail] at hs
        simp at hs
      | cons x xs =>
        rw [htail, List.dropLast_cons_of_ne_nil (by simp)] at hs
        rcases List.mem_cons.mp hs with rfl | hs
        · exact scrollRound_continue st (page i) hstop
        · have := ih (i + 1) (scrollRound st (page i)).1 s
          rw [htail] at this
          exact this hs

/-- Claim C4: for every page behaviour, the scroll loop executes at most
`max_rounds = 5` iterations, and every round after which it continued held
fewer than 30 deduplicated records — i.e. it stops as soon as the
deduplicated set reaches the 30-record cap. -/
theorem scroll_bounded_C4 (page : Nat → RoundInput) (st : ScrollState) :
    (intelligentScrollTrace page st).length ≤ 5 ∧
    ∀ s ∈ (intelligentScrollTrace page st).dropLast, s.scroll.flights.length < 30 := by
  constructor
  · exact scrollTrace_length page 5 1 ⟨st, 0, 0, 0⟩
  · exact scrollTrace_dropLast page 5 1 ⟨st, 0, 0, 0⟩

/-- Witness for C4, at a page that never yields content: the loop runs three
quiet rounds and stops; the state after the first round is in the trace with
fewer than 30 records. -/
theorem scroll_bounded_C4_witness :
    ((⟨⟨[], []⟩, 1, 0, 0⟩ : LoopState) ∈
      (intelligentScrollTrace (fun _ => {}) ⟨[], []⟩).dropLast) ∧
    (⟨⟨[], []⟩, 1, 0, 0⟩ : LoopState).scroll.flights.length < 30 :=
  ⟨by decide, (scroll_bounded_C4 (fun _ => {}) ⟨[], []⟩).2 _ (by decide)⟩

theorem search_flights_valid (env : Env) (dep dest date : String) (d : Date)
    (hparse : parseDate date = some d)
    (hdepc : isFalsyOpt (env.getAirportCode dep) = false)
    (hdestc : isFalsyOpt (env.getAirportCode dest) = false) :
    (∀ flights, search_flights env dep dest date (.ok flights) = flights) ∧
    (∀ e, search_flights env dep dest date (.error e) = []) := by
  constructor
  · intro flights
    unfold search_flights
    rw [hdepc, hdestc, hparse]
    rfl
  · intro e
    unfold search_flights
    rw [hdepc, hdestc, hparse]
    rfl

theorem searchFlightRoutes_valid (env : Env) (session : SessionOutcome)
    (dep dest date : String) (d : Date)
    (hdep : dep ≠ "") (hdest : dest ≠ "") (hdate : date ≠ "")
    (hdr : env.drissionAvailable = true) (hcd : env.citiesAvailable = true)
    (hparse : parseDate date = some d) (hpast : dateLt d env.today = false)
    (hdepc : isFalsyOpt (env.getAirportCode dep) = false)
    (hdestc : isFalsyOpt (env.getAirportCode dest) = false) :
    searchFlightRoutes env session dep dest date =
      match session with
      | .raises e => errorResult ("查询航班路线失败: " ++ e) "SEARCH_FAILED"
      | .runs phase =>
        successResult env dep dest date (search_flights env dep dest date phase) := by
  unfold searchFlightRoutes
  rw [if_neg (by simp [hdep, hdest, hdate]), hdr, hcd]
  rw [if_neg (by simp), if_neg (by simp), hparse]
  dsimp only
  rw [if_neg (by simp [hpast]), if_neg (by simp [hdepc]), if_neg (by simp [hdestc])]

/-- Claim C6: with both optional dependencies available and non-empty city
fields, validation answers before any browser work (the result is the same
for every session outcome): a well-formed date strictly before today yields
the `PAST_DATE` envelope, an unparsable date string yields the
`INVALID_DATE_FORMAT` envelope, and an empty departure city yields the
`INVALID_PARAMS` envelope unconditionally. -/
theorem validation_codes_C6 (env : Env)
    (hdr : env.drissionAvailable = true) (hcd : env.citiesAvailable = true)
    (dep dest : String) (hdep : dep ≠ "") (hdest : dest ≠ "") :
    (∀ (session : SessionOutcome) (date : String) (d : Date), date ≠ "" →
      parseDate date = some d → dateLt d env.today = true →
      searchFlightRoutes env session dep dest date =
        errorResult "不能查询过去的日期" "PAST_DATE") ∧
    (∀ (session : SessionOutcome) (date : String), date ≠ "" →
      parseDate date = none →
      searchFlightRoutes env session dep dest date =
        errorResult "日期格式不正确，请使用YYYY-MM-DD格式" "INVALID_DATE_FORMAT") ∧
    (∀ (session : SessionOutcome) (dest2 date : String),
      searchFlightRoutes env session "" dest2 date =
        errorResult "出发地、目的地和出发日期都不能为空" "INVALID_PARAMS") := by
  refine ⟨?_, ?_, ?_⟩
  · intro session date d hdate hparse hlt
    unfold searchFlightRoutes
    rw [if_neg (by simp [hdep, hdest, hdate]), hdr, hcd]
    rw [if_neg (by simp), if_neg (by simp), hparse]
    dsimp only
    rw [if_pos hlt]
  · intro session date hdate hparse
    unfold searchFlightRoutes
    rw [if_neg (by simp [hdep, hdest, hdate]), hdr, hcd]
    rw [if_neg (by simp), if_neg (by simp), hparse]
  · intro session dest2 date
    unfold searchFlightRoutes
    rw [if_pos (Or.inl rfl)]

/-- Witness for C6 at the spec's concrete validation examples, with today
fixed to 2025-10-12. -/
theorem validation_codes_C6_witness :
    searchFlightRoutes envDemo (.runs (.ok [])) "北京" "上海" "2020-01-01" =
      errorResult "不能查询过去的日期" "PAST_DATE" ∧
    searchFlightRoutes envDemo (.runs (.ok [])) "北京" "上海" "2025-13-01" =
      errorResult "日期格式不正确，请使用YYYY-MM-DD格式" "INVALID_DATE_FORMAT" ∧
    searchFlightRoutes envDemo (.runs (.ok [])) "" "上海" "2026-01-01" =
      errorResult "出发地、目的地和出发日期都不能为空" "INVALID_PARAMS" :=
  ⟨(validation_codes_C6 envDemo rfl rfl "北京" "上海" (by decide) (by decide)).1
      (.runs (.ok [])) "2020-01-01" ⟨2020, 1, 1⟩ (by decide) (by decide) (by decide),
   (validation_codes_C6 envDemo rfl rfl "北京" "上海" (by decide) (by decide)).2.1
      (.runs (.ok [])) "2025-13-01" (by decide) (by decide),
   (validation_codes_C6 envDemo rfl rfl "北京" "上海" (by decide) (by decide)).2.2
      (.runs (.ok [])) "上海" "2026-01-01"⟩

/-- Claim C2 fails on the code: a failure raised during navigation or
extraction is caught inside `search_flights` and converted to an empty
flight list, so the top-level operation returns a success envelope with zero
flights instead of a `SEARCH_FAILED` error envelope. -/
theorem search_failed_counterexample_C2 :
    (searchFlightRoutes envDemo (.runs (.error "page navigation failed"))
        "北京" "上海" "2026-01-01").status = "success" ∧
    (searchFlightRoutes envDemo (.runs (.error "page navigation failed"))
        "北京" "上海" "2026-01-01").error_code = none ∧
    (searchFlightRoutes envDemo (.runs (.error "page navigation failed"))
        "北京" "上海" "2026-01-01").flight_count = some 0 ∧
    (searchFlightRoutes envDemo (.runs (.error "page navigation failed"))
        "北京" "上海" "2026-01-01").flights = [] := by
  decide

/-- Claim C2 (amended): an unexpected failure during navigation or extraction
is caught inside `search_flights` and yields an empty flight list, so the
top-level operation returns a success envelope with zero flights and no error
code; the `SEARCH_FAILED` envelope with the underlying message attached is
produced exactly when an exception escapes the session block itself
(searcher construction or close). -/
theorem inner_failure_empty_success_C2 (env : Env) (dep dest date e : String) (d : Date)
    (hdep : dep ≠ "") (hdest : dest ≠ "") (hdate : date ≠ "")
    (hdr : env.drissionAvailable = true) (hcd : env.citiesAvailable = true)
    (hparse : parseDate date = some d) (hpast : dateLt d env.today = false)
    (hdepc : isFalsyOpt (env.getAirportCode dep) = false)
    (hdestc : isFalsyOpt (env.getAirportCode dest) = false) :
    ((searchFlightRoutes env (.runs (.error e)) dep dest date).status = "success" ∧
     (searchFlightRoutes env (.runs (.error e)) dep dest date).error_code = none ∧
     (searchFlightRoutes env (.runs (.error e)) dep dest date).flight_count = some 0) ∧
    searchFlightRoutes env (.raises e) dep dest date =
      errorResult ("查询航班路线失败: " ++ e) "SEARCH_FAILED" := by
  have hmain := searchFlightRoutes_valid env (.runs (.error e)) dep dest date d
    hdep hdest hdate hdr hcd hparse hpast hdepc hdestc
  dsimp only at hmain
  have hemp := (search_flights_valid env dep dest date d hparse hdepc hdestc).2 e
  rw [hemp] at hmain
  constructor
  · rw [hmain]
    exact ⟨rfl, rfl, rfl⟩
  · exact searchFlightRoutes_valid env (.raises e) dep dest date d
      hdep hdest hdate hdr hcd hparse hpast hdepc hdestc

/-- Witness for the amended C2 at concrete inputs. -/
theorem inner_failure_empty_success_C2_witness :
    (searchFlightRoutes envDemo (.runs (.error "timeout")) "北京" "上海" "2026-01-01").status
      = "success" ∧
    searchFlightRoutes envDemo (.raises "timeout") "北京" "上海" "2026-01-01" =
      errorResult ("查询航班路线失败: " ++ "timeout") "SEARCH_FAILED" :=
  ⟨(inner_failure_empty_success_C2 envDemo "北京" "上海" "2026-01-01" "timeout" ⟨2026, 1, 1⟩
      (by decide) (by decide) (by decide) rfl rfl (by decide) (by decide) rfl rfl).1.1,
   (inner_failure_empty_success_C2 envDemo "北京" "上海" "2026-01-01" "timeout" ⟨2026, 1, 1⟩
      (by decide) (by decide) (by decide) rfl rfl (by decide) (by decide) rfl rfl).2⟩

theorem priceStep_foldl :
    ∀ (fs : List FlightInfo) (acc : List Nat),
      fs.foldl priceStep acc = acc ++ specEligiblePrices fs := by
  intro fs
  induction fs with
  | nil => intro acc; simp [specEligiblePrices]
  | cons f fs ih =>
    intro acc
    rw [List.foldl_cons]
    cases hp : f.price with
    | none =>
      have h1 : priceStep acc f = acc := by simp [priceStep, hp]
      have h2 : specEligiblePrices (f :: fs) = specEligiblePrices fs := by
        simp [specEligiblePrices, List.filterMap_cons, hp]
      rw [h1, h2, ih]
    | some p =>
      by_cases hk : p = "未知"
      · have h1 : priceStep acc f = acc := by simp [priceStep, hp, hk]
        have h2 : specEligiblePrices (f :: fs) = specEligiblePrices fs := by
          simp [specEligiblePrices, List.filterMap_cons, hp, hk]
        rw [h1, h2, ih]
      · by_cases hd : pyIsDigit (stripPriceStr p) = true
        · have h1 : priceStep acc f = acc ++ [digitsToNat (stripPriceStr p).data] := by
            simp [priceStep, hp, hk, hd]
          have h2 : specEligiblePrices (f :: fs) =
              digitsToNat (stripPriceStr p).data :: specEligiblePrices fs := by
            simp [specEligiblePrices, List.filterMap_cons, hp, hk, hd]
          rw [h1, h2, ih]
          simp
        · have h1 : priceStep acc f = acc := by simp [priceStep, hp, hk, hd]
          have h2 : specEligiblePrices (f :: fs) = specEligiblePrices fs := by
            simp [specEligiblePrices, List.filterMap_cons, hp, hk, hd]
          rw [h1, h2, ih]

theorem collectPrices_eq (flights : List FlightInfo) :
    collectPrices flights = specEligiblePrices flights := by
  unfold collectPrices
  rw [priceStep_foldl]
  simp

theorem foldl_add_eq_sum : ∀ (l : List Nat) (a : Nat),
    l.foldl (fun x y => x + y) a = a + l.sum := by
  intro l
  induction l with
  | nil => intro a; simp
  | cons x xs ih =>
    intro a
    simp only [List.foldl_cons, List.sum_cons, ih (a + x)]
    omega

/-- Claim C9: under valid inputs, the price statistics of the success
envelope are computed exactly over the records whose price string, stripped
of the currency symbol and the qualifier, is a digit string, and the average
is the integer floor of the sum divided by the count (the witness instance
has prices 100 and 101 and average 100). -/
theorem price_stats_C9 (env : Env) (dep dest date : String) (d : Date)
    (flights : List FlightInfo)
    (hdep : dep ≠ "") (hdest : dest ≠ "") (hdate : date ≠ "")
    (hdr : env.drissionAvailable = true) (hcd : env.citiesAvailable = true)
    (hparse : parseDate date = some d) (hpast : dateLt d env.today = false)
    (hdepc : isFalsyOpt (env.getAirportCode dep) = false)
    (hdestc : isFalsyOpt (env.getAirportCode dest) = false) :
    (searchFlightRoutes env (.runs (.ok flights)) dep dest date).price_statistics =
      match specEligiblePrices flights with
      | [] => none
      | p :: ps =>
        some ⟨ps.foldl Nat.min p, ps.foldl Nat.max p, (p + ps.sum) / (ps.length + 1)⟩ := by
  have hmain := searchFlightRoutes_valid env (.runs (.ok flights)) dep dest date d
    hdep hdest hdate hdr hcd hparse hpast hdepc hdestc
  dsimp only at hmain
  rw [(search_flights_valid env dep dest date d hparse hdepc hdestc).1 flights] at hmain
  rw [hmain]
  unfold successResult
  by_cases hne : flights = []
  · subst hne
    simp [specEligiblePrices]
  · rw [if_pos hne]
    dsimp only
    rw [collectPrices_eq]
    cases he : specEligiblePrices flights with
    | nil => simp
    | cons p ps =>
      rw [if_pos (by simp)]
      unfold priceStatsOf
      dsimp only
      rw [foldl_add_eq_sum]
      simp [Nat.add_comm]

/-- Witness for C9 at the concrete flight list with prices ¥100, ¥101 and an
unparsable price: average 100 by floor division. -/
theorem price_stats_C9_witness :
    (searchFlightRoutes envDemo (.runs (.ok [flight100, flight101, flightBad]))
        "北京" "上海" "2026-01-01").price_statistics = some ⟨100, 101, 100⟩ :=
  (price_stats_C9 envDemo "北京" "上海" "2026-01-01" ⟨2026, 1, 1⟩
      [flight100, flight101, flightBad] (by decide) (by decide) (by decide) rfl rfl
      (by decide) (by decide) rfl rfl).trans (by decide)

theorem byKey_eq_false_of_empty {k : String} (hk : k ≠ "") {f : FlightInfo}
    (h : makeFlightKey f = "") : byKey k f = false := by
  simp only [byKey, h, beq_eq_false_iff_ne, ne_eq]
  exact fun hc => hk hc.symm

theorem take_one_append {α : Type} (l l' : List α) (h : l ≠ []) :
    (l ++ l').take 1 = l.take 1 := by
  cases l with
  | nil => exact absurd rfl h
  | cons a l => simp

theorem filter_ne_nil_iff (k : String) (fs : List FlightInfo) :
    fs.filter (byKey k) ≠ [] ↔ ∃ f ∈ fs, makeFlightKey f = k := by
  rw [ne_eq, List.filter_eq_nil_iff]
  push_neg
  simp [byKey]

theorem mergeAll_cons (ke : Bool) (st : ScrollState) (f : FlightInfo)
    (fs : List FlightInfo) :
    mergeAll ke st (f :: fs) =
      mergeAll ke
        (if makeFlightKey f = "" then
          (if ke then ⟨st.flights ++ [f], st.keys⟩ else st)
         else if makeFlightKey f ∈ st.keys then st
         else ⟨st.flights ++ [f], makeFlightKey f :: st.keys⟩) fs := by
  rw [mergeAll]
  split_ifs <;> rfl

theorem collectMergeStep_fst (acc : ScrollState × Nat) (f : FlightInfo) :
    (collectMergeStep acc f).1 =
      if makeFlightKey f = "" then acc.1
      else if makeFlightKey f ∈ acc.1.keys then acc.1
      else ⟨acc.1.flights ++ [f], makeFlightKey f :: acc.1.keys⟩ := by
  simp only [collectMergeStep]
  split_ifs <;> rfl

theorem mergeAll_filter (k : String) (hk : k ≠ "") (ke : Bool) :
    ∀ (fs : List FlightInfo) (st : ScrollState),
      (mergeAll ke st fs).flights.filter (byKey k) =
        st.flights.filter (byKey k) ++
          (if k ∈ st.keys then [] else (fs.filter (byKey k)).take 1) := by
  intro fs
  induction fs with
  | nil =>
    intro st
    rw [mergeAll]
    simp
  | cons f fs ih =>
    intro st
    rw [mergeAll_cons]
    by_cases hke : makeFlightKey f = ""
    · rw [if_pos hke]
      have hbf : byKey k f = false := byKey_eq_false_of_empty hk hke
      cases ke with
      | false =>
        rw [if_neg (by simp)]
        rw [ih st]
        simp [List.filter_cons, hbf]
      | true =>
        rw [if_pos rfl, ih ⟨st.flights ++ [f], st.keys⟩]
        dsimp only
        rw [List.filter_append]
        simp [List.filter_cons, hbf]
    · rw [if_neg hke]
      by_cases hmem : makeFlightKey f ∈ st.keys
      · rw [if_pos hmem, ih st]
        by_cases hkf : makeFlightKey f = k
        · have hkk : k ∈ st.keys := hkf ▸ hmem
          rw [if_pos hkk, if_pos hkk]
        · have hbf : byKey k f = false := by simp [byKey, hkf]
          simp [List.filter_cons, hbf]
      · rw [if_neg hmem, ih ⟨st.flights ++ [f], makeFlightKey f :: st.keys⟩]
        dsimp only
        rw [List.filter_append]
        by_cases hkf : makeFlightKey f = k
        · have hbt : byKey k f = true := by simp [byKey, hkf]
          have hkmem : k ∉ st.keys := fun h => hmem (hkf ▸ h)
          have hhead : k ∈ makeFlightKey f :: st.keys := by
            rw [hkf]
            exact List.mem_cons_self _ _
          simp [List.filter_cons, hbt, hhead, hkmem]
        · have hbf : byKey k f = false := by simp [byKey, hkf]
          have hiff : (k ∈ makeFlightKey f :: st.keys) ↔ k ∈ st.keys := by
            have hne : ¬k = makeFlightKey f := fun h => hkf h.symm
            simp [List.mem_cons, hne]
          simp only [hiff]
          simp [List.filter_cons, hbf]

theorem mergeAll_keys (k : String) (hk : k ≠ "") (ke : Bool) :
    ∀ (fs : List FlightInfo) (st : ScrollState),
      (k ∈ (mergeAll ke st fs).keys ↔ k ∈ st.keys ∨ ∃ f ∈ fs, makeFlightKey f = k) := by
  intro fs
  induction fs with
  | nil =>
    intro st
    rw [mergeAll]
    simp
  | cons f fs ih =>
    intro st
    rw [mergeAll_cons]
    by_cases hke : makeFlightKey f = ""
    · rw [if_pos hke]
      have hne : makeFlightKey f ≠ k := fun h => hk (hke ▸ h).symm
      cases ke with
      | false =>
        rw [if_neg (by simp)]
        rw [ih st]
        simp [hne]
      | true =>
        rw [if_pos rfl, ih ⟨st.flights ++ [f], st.keys⟩]
        simp [hne]
    · rw [if_neg hke]
      by_cases hmem : makeFlightKey f ∈ st.keys
      · rw [if_pos hmem, ih st]
        by_cases hkf : makeFlightKey f = k
        · have hkk : k ∈ st.keys := hkf ▸ hmem
          simp [hkk]
        · simp [hkf]
      · rw [if_neg hmem, ih ⟨st.flights ++ [f], makeFlightKey f :: st.keys⟩]
        dsimp only
        rw [List.mem_cons]
        by_cases hkf : makeFlightKey f = k
        · simp [hkf]
        · have hne : ¬k = makeFlightKey f := fun h => hkf h.symm
          simp [hne, hkf]

theorem mergeStages_append :
    ∀ (ss ts : List (Bool × List FlightInfo)) (st : ScrollState),
      mergeStages st (ss ++ ts) = mergeStages (mergeStages st ss) ts := by
  intro ss
  induction ss with
  | nil => intro ts st; rfl
  | cons s ss ih =>
    intro ts st
    rw [List.cons_append, mergeStages, mergeStages]
    exact ih ts (mergeAll s.1 st s.2)

theorem mergeStages_filter (k : String) (hk : k ≠ "") :
    ∀ (ss : List (Bool × List FlightInfo)) (st : ScrollState),
      (mergeStages st ss).flights.filter (byKey k) =
        st.flights.filter (byKey k) ++
          (if k ∈ st.keys then []
           else (((ss.map Prod.snd).flatten).filter (byKey k)).take 1) := by
  intro ss
  induction ss with
  | nil =>
    intro st
    rw [mergeStages]
    simp
  | cons s ss ih =>
    intro st
    rw [mergeStages, ih (mergeAll s.1 st s.2), mergeAll_filter k hk s.1 s.2 st]
    rw [List.map_cons, List.flatten_cons, List.filter_append]
    by_cases hmem : k ∈ st.keys
    · have hmem2 : k ∈ (mergeAll s.1 st s.2).keys :=
        (mergeAll_keys k hk s.1 s.2 st).mpr (Or.inl hmem)
      rw [if_pos hmem, if_pos hmem, if_pos hmem2]
      simp
    · rw [if_neg hmem, if_neg hmem]
      by_cases hex : ∃ f ∈ s.2, makeFlightKey f = k
      · have hmem2 : k ∈ (mergeAll s.1 st s.2).keys :=
          (mergeAll_keys k hk s.1 s.2 st).mpr (Or.inr hex)
        rw [if_pos hmem2, List.append_nil,
          take_one_append _ _ ((filter_ne_nil_iff k s.2).mpr hex)]
      · have hmem2 : k ∉ (mergeAll s.1 st s.2).keys := by
          intro hc
          rcases (mergeAll_keys k hk s.1 s.2 st).mp hc with h | h
          · exact hmem h
          · exact hex h
        have hnil : s.2.filter (byKey k) = [] := by
          by_contra hc
          exact hex ((filter_ne_nil_iff k s.2).mp hc)
        rw [if_neg hmem2, hnil]
        simp [List.append_assoc]

theorem collectLoop_eq :
    ∀ (cs : List Container) (acc : ScrollState × Nat) (i : Nat),
      (collectLoop acc i cs).1 = mergeAll false acc.1 (collectCandidates i cs) := by
  intro cs
  induction cs with
  | nil =>
    intro acc i
    rw [collectLoop, collectCandidates, indexFrom]
    rw [List.filterMap_nil, mergeAll]
  | cons c cs ih =>
    intro acc i
    rw [collectLoop]
    have hcand :
        collectCandidates i (c :: cs) =
          match parseFlightContainer c i with
          | none => collectCandidates (i + 1) cs
          | some f => f :: collectCandidates (i + 1) cs := by
      rw [collectCandidates, indexFrom, List.filterMap_cons]
      cases parseFlightContainer c i <;> rfl
    cases hp : parseFlightContainer c i with
    | none =>
      rw [hp] at hcand
      rw [hcand, ih acc (i + 1)]
    | some f =>
      rw [hp] at hcand
      rw [hcand, ih (collectMergeStep acc f) (i + 1), mergeAll_cons,
        collectMergeStep_fst]
      by_cases hke : makeFlightKey f = ""
      · rw [if_pos hke, if_pos hke, if_neg (by simp)]
      · rw [if_neg hke, if_neg hke]

theorem parseLoop_eq :
    ∀ (cs : List Container) (st : ScrollState) (i : Nat),
      parseLoop st i cs = mergeAll true st (parseCandidates i cs) := by
  intro cs
  induction cs with
  | nil =>
    intro st i
    rw [parseLoop, parseCandidates, indexFrom]
    rw [List.filterMap_nil, mergeAll]
  | cons c cs ih =>
    intro st i
    rw [parseLoop]
    have hcand :
        parseCandidates i (c :: cs) =
          match (parseFlightContainer c i).filter parseValid with
          | none => parseCandidates (i + 1) cs
          | some f => f :: parseCandidates (i + 1) cs := by
      rw [parseCandidates, indexFrom, List.filterMap_cons]
      cases (parseFlightContainer c i).filter parseValid <;> rfl
    cases hp : parseFlightContainer c i with
    | none =>
      rw [hp] at hcand
      rw [Option.filter_none] at hcand
      rw [hcand, ih st (i + 1)]
    | some f =>
      rw [hp] at hcand
      by_cases hv : parseValid f = true
      · rw [show (some f).filter parseValid = some f from by
            simp [Option.filter, hv]] at hcand
        dsimp only at hcand
        rw [hcand]
        dsimp only
        rw [if_pos hv, mergeAll_cons]
        by_cases hke : makeFlightKey f = ""
        · rw [if_pos hke, if_pos hke, if_pos rfl, ih _ (i + 1)]
        · rw [if_neg hke, if_neg hke]
          by_cases hmem : makeFlightKey f ∈ st.keys
          · rw [if_pos hmem, if_pos hmem, ih st (i + 1)]
          · rw [if_neg hmem, if_neg hmem, ih _ (i + 1)]
      · rw [show (some f).filter parseValid = none from by
            simp [Option.filter, hv]] at hcand
        dsimp only at hcand
        rw [hcand]
        dsimp only
        rw [if_neg hv, ih st (i + 1)]

theorem runRoundsCollect_eq :
    ∀ (rounds : List (List Container)) (st : ScrollState),
      runRoundsCollect rounds st =
        mergeStages st (rounds.map (fun cs => (false, collectCandidates 1 cs))) := by
  intro rounds
  induction rounds with
  | nil => intro st; rfl
  | cons r rounds ih =>
    intro st
    have hstep : runRoundsCollect (r :: rounds) st =
        runRoundsCollect rounds (collectVisibleFlights r st).1 := rfl
    rw [hstep, ih, List.map_cons, mergeStages]
    have : (collectVisibleFlights r st).1 = mergeAll false st (collectCandidates 1 r) :=
      collectLoop_eq r (st, 0) 1
    rw [this]

theorem renumber_filter_eraseIdx (k : String) :
    ∀ (fs : List FlightInfo) (i : Nat),
      (((indexFrom i fs).map (fun p => setIdx p.1 p.2)).filter (byKey k)).map eraseIdx =
        (fs.filter (byKey k)).map eraseIdx := by
  intro fs
  induction fs with
  | nil => intro i; rfl
  | cons f fs ih =>
    intro i
    rw [indexFrom, List.map_cons]
    have hkey : byKey k (setIdx i f) = byKey k f := rfl
    cases hb : byKey k f with
    | false =>
      rw [List.filter_cons_of_neg (by simp [hkey, hb]),
        List.filter_cons_of_neg (by simp [hb])]
      exact ih (i + 1)
    | true =>
      rw [List.filter_cons_of_pos (by simp [hkey, hb]),
        List.filter_cons_of_pos (by simp [hb]), List.map_cons, List.map_cons]
      rw [ih (i + 1)]
      rfl

/-- Claim C3: for every non-empty identity key k, the merged record list
produced by the scroll rounds plus the final pass keeps, among all records
offered to the deduplicator with key k, exactly the first-seen one (up to the
reassigned presentation index): filtering the merged output by k equals
taking the first of the filtered candidate stream, so the output holds at
most one record per non-empty key and a later duplicate never replaces an
earlier record. -/
theorem dedup_first_seen_C3 (rounds : List (List Container))
    (finalCs : Option (List Container)) (k : String) (hk : k ≠ "") :
    ((searchMerged rounds finalCs).filter (byKey k)).map eraseIdx =
      (((allCandidates rounds finalCs).filter (byKey k)).map eraseIdx).take 1 ∧
    ((searchMerged rounds finalCs).filter (byKey k)).length ≤ 1 := by
  have hbase :
      (runRoundsCollect rounds ⟨[], []⟩).flights.filter (byKey k) =
        (((rounds.map (collectCandidates 1)).flatten).filter (byKey k)).take 1 := by
    rw [runRoundsCollect_eq, mergeStages_filter k hk]
    simp [List.map_map, Function.comp_def]
  rcases finalCs with _ | cs
  · have hsm : searchMerged rounds none = (runRoundsCollect rounds ⟨[], []⟩).flights := rfl
    have hac : allCandidates rounds none = (rounds.map (collectCandidates 1)).flatten := by
      simp [allCandidates]
    constructor
    · rw [hsm, hac, hbase, List.map_take]
    · rw [hsm, hbase]
      exact List.length_take_le 1 _
  · by_cases hcs : cs = []
    · subst hcs
      have hsm : searchMerged rounds (some []) =
          (runRoundsCollect rounds ⟨[], []⟩).flights := rfl
      have hac : allCandidates rounds (some []) =
          (rounds.map (collectCandidates 1)).flatten := by
        simp [allCandidates]
      constructor
      · rw [hsm, hac, hbase, List.map_take]
      · rw [hsm, hbase]
        exact List.length_take_le 1 _
    · have hsm : searchMerged rounds (some cs) =
          renumber (parseLoop (runRoundsCollect rounds ⟨[], []⟩) 1 cs).flights := by
        unfold searchMerged parseFlights
        dsimp only
        rw [if_neg hcs]
      have hflights :
          parseLoop (runRoundsCollect rounds ⟨[], []⟩) 1 cs =
            mergeStages ⟨[], []⟩
              ((rounds.map (fun cs2 => (false, collectCandidates 1 cs2))) ++
                [(true, parseCandidates 1 cs)]) := by
        rw [parseLoop_eq, runRoundsCollect_eq, mergeStages_append]
        rw [mergeStages, mergeStages]
      have hfilter :
          (parseLoop (runRoundsCollect rounds ⟨[], []⟩) 1 cs).flights.filter (byKey k) =
            ((allCandidates rounds (some cs)).filter (byKey k)).take 1 := by
        rw [hflights, mergeStages_filter k hk]
        have hmap : (((rounds.map (fun cs2 => (false, collectCandidates 1 cs2))) ++
            [(true, parseCandidates 1 cs)]).map Prod.snd).flatten =
            allCandidates rounds (some cs) := by
          simp [allCandidates, List.map_append, List.map_map, Function.comp_def,
            List.flatten_append, hcs]
        rw [hmap]
        simp
      have heidx :
          ((renumber (parseLoop (runRoundsCollect rounds ⟨[], []⟩) 1 cs).flights).filter
              (byKey k)).map eraseIdx =
            (((allCandidates rounds (some cs)).filter (byKey k)).map eraseIdx).take 1 := by
        unfold renumber
        rw [renumber_filter_eraseIdx k _ 1, hfilter, List.map_take]
      constructor
      · rw [hsm]
        exact heidx
      · rw [hsm]
        have h2 := congrArg List.length heidx
        rw [List.length_map] at h2
        rw [h2]
        exact List.length_take_le 1 _

/-- Witness for C3 at a concrete run: the same container seen in two scroll
rounds and again in the final pass leaves at most one record with key
"MU6863". -/
theorem dedup_first_seen_C3_witness :
    ((searchMerged [[containerMU], [containerMU]] (some [containerMU])).filter
        (byKey "MU6863")).length ≤ 1 :=
  (dedup_first_seen_C3 [[containerMU], [containerMU]] (some [containerMU]) "MU6863"
      (by decide)).2
